import Mathlib

/-!
Shallow embedding of the heart-disease risk prediction backend
(`backend/routes/predict_routes.py`, `backend/routes/auth_routes.py`,
`backend/utils/shap_handler.py`, `backend/utils/gemini_client.py`,
`backend/utils/token.py`).

Numeric feature values and classifier probabilities are modelled as
rationals (`ℚ`); the pretrained model artifacts (preprocessor, the three
classifiers, the SHAP explainer) and the external generative service are
opaque third-party objects and are modelled as parameters, while every
piece of control flow written in this repository is translated directly
from the source.
-/

namespace HeartRisk

/-- A raw feature value as it arrives in the JSON request.  `num q` models a
value on which the Python call `float(v)` succeeds with result `q`; `str s` models a
value on which `float(v)` raises (the "non-numeric" case in the source). -/
inductive FVal where
  | num (q : ℚ)
  | str (s : String)
deriving DecidableEq, Repr

/-- Function `_age_group` from `predict_routes.py` (lines 49-60): bins `age` into one
of four labels, with `"unknown"` when `float(a)` raises. -/
def age_group : FVal → String
  | .num a =>
      if a < 31 then "0-30"
      else if a < 46 then "31-45"
      else if a < 61 then "46-60"
      else "61+"
  | .str _ => "unknown"

/-- Function `_bp_cat` from `predict_routes.py` (lines 66-77): bins `trestbps`. -/
def bp_cat : FVal → String
  | .num b =>
      if b < 120 then "normal"
      else if b < 130 then "elevated"
      else if b < 140 then "hypertension1"
      else "hypertension2"
  | .str _ => "unknown"

/-- Function `_chol_cat` from `predict_routes.py` (lines 83-92): bins `chol`. -/
def chol_cat : FVal → String
  | .num c =>
      if c < 200 then "normal"
      else if c < 240 then "borderline"
      else "high"
  | .str _ => "unknown"

/-- The single-row feature table built from the request JSON
(`df = pd.DataFrame({key: [value] ...})`).  Only the columns the
derivation code in `predict_routes.py` reads or writes are named; a field
is `none` when the corresponding column is absent from the request. -/
structure Row where
  age : Option FVal := none
  trestbps : Option FVal := none
  chol : Option FVal := none
  thalach : Option FVal := none
  thalch : Option FVal := none
  age_group : Option FVal := none
  bp_cat : Option FVal := none
  chol_cat : Option FVal := none
deriving DecidableEq, Repr

/-- The column-derivation block of `predict_risk`
(`predict_routes.py` lines 44-94): copy `thalach` to the misspelled
`thalch` when the former exists and the latter does not, then derive each
of `age_group`, `bp_cat`, `chol_cat` from its source column when the
source exists and the target does not. -/
def deriveColumns (df : Row) : Row :=
  let df1 := if df.thalach.isSome ∧ df.thalch.isNone then
      { df with thalch := df.thalach } else df
  let df2 := match df1.age, df1.age_group with
    | some a, none => { df1 with age_group := some (.str (age_group a)) }
    | _, _ => df1
  let df3 := match df2.trestbps, df2.bp_cat with
    | some b, none => { df2 with bp_cat := some (.str (bp_cat b)) }
    | _, _ => df2
  let df4 := match df3.chol, df3.chol_cat with
    | some c, none => { df3 with chol_cat := some (.str (chol_cat c)) }
    | _, _ => df3
  df4

/-! ### Attribution extraction (`shap_handler.py`) -/

/-- Descending order on absolute contribution, the key used by
`abs_vals.argsort()[-top:][::-1]` in `get_top_features`. -/
def absGE (a b : String × ℚ) : Prop := |b.2| ≤ |a.2|

instance : DecidableRel absGE := fun a b =>
  inferInstanceAs (Decidable (|b.2| ≤ |a.2|))

instance : IsTotal (String × ℚ) absGE := ⟨fun a b => le_total _ _⟩

instance : IsTrans (String × ℚ) absGE := ⟨fun _ _ _ h1 h2 => le_trans h2 h1⟩

/-- Function `get_top_features` from `shap_handler.py` (lines 36-53), applied to the
normalized 1-D SHAP vector `sample_shap` of the first sample: rank the
feature indices by descending absolute SHAP value and return the first
`top` of them as `(feature name, signed value)` pairs.  The numpy idiom
`argsort()[-top:][::-1]` (ascending sort, keep the largest `top`,
reverse) is modelled as a descending sort followed by `take top`; name
lookup `fnames[i]` is total here with default `""`. -/
def get_top_features (sample_shap : List ℚ) (fnames : List String)
    (top : Nat) : List (String × ℚ) :=
  let pairs := (List.range sample_shap.length).map
    (fun i => (fnames.getD i "", sample_shap.getD i 0))
  (List.insertionSort absGE pairs).take top

/-! ### Tokens (`utils/token.py`) -/

/-- The JWT payload as built by `generate_token` and read by call sites via
`payload.get(...)`: each claim may be absent.  The `exp` claim drives
expiry, which surfaces only as a decode failure and is therefore folded
into `Token.forged` below. -/
structure TokenPayload where
  email : Option String := none
  name : Option String := none
  role : Option String := none
deriving DecidableEq, Repr

/-- A bearer token as seen by `decode_token`: `signed p` is a token whose
HS256 signature verifies and whose payload decodes to `p`; `forged e`
is any token on which `decode_token` raises (bad signature, expiry,
malformed JWT), with `e` the exception message. -/
inductive Token where
  | signed (p : TokenPayload)
  | forged (e : String)
deriving DecidableEq, Repr

/-- Function `decode_token` from `utils/token.py` (lines 74-80): returns the payload
of a well-signed token and raises otherwise. -/
def decode_token : Token → Except String TokenPayload
  | .signed p => .ok p
  | .forged e => .error e

/-- Function `generate_token` from `utils/token.py` (lines 56-71): signs a payload
holding `email` always and `name`/`role` only when not `None` (the `exp`
claim is time, abstracted away). -/
def generate_token (email : String) (name : Option String)
    (role : Option String) : Token :=
  .signed { email := some email, name := name, role := role }

/-- The `Authorization` header of a request: absent, present but not of the
form `"Bearer <token>"`, or a bearer token. -/
inductive AuthHeader where
  | missing
  | malformed (s : String)
  | bearer (t : Token)
deriving DecidableEq, Repr

/-! ### Narrative generation (`utils/gemini_client.py`)

The Gemini library is a third-party network client; it is modelled as an
opaque service.  Everything the code of this repository does around it — the
configuration check, the exception fallback, the empty-text fallback and
the line cleaning — is translated directly. -/

/-- Which of the four prompt templates is being sent; together with the
arguments it determines the prompt string the source builds. -/
inductive PromptKind where
  | explanation
  | lifestyle
  | followup
  | prescription
deriving DecidableEq, Repr

/-- The data interpolated into a prompt f-string: the raw inputs, the
score, the tier, the attribution pairs and the language tag. -/
structure PromptArgs where
  kind : PromptKind
  inputs : Row
  risk_score : ℚ
  risk_level : String
  top_features : List (String × ℚ)
  language : String
deriving DecidableEq, Repr

/-- The external generative service: `configured` models
`os.getenv("GEMINI_API_KEY")` being set (`_get_client`), and
`generate_content` models `GenerativeModel(...).generate_content(prompt)`
returning response text or raising. -/
structure GenService where
  configured : Bool
  generate_content : PromptArgs → Except String String

/-- Rendering of the risk score into the fallback sentence
(`f"{risk_score:.2f}"`); the exact decimal formatting is abstracted as
`toString`. -/
def formatScore (q : ℚ) : String := toString q

/-- Function `_basic_explanation_fallback` from `gemini_client.py` (lines 23-29). -/
def basic_explanation_fallback (risk_level : String) (risk_score : ℚ) :
    String :=
  "Your predicted heart disease risk is " ++ risk_level ++
  " (score: " ++ formatScore risk_score ++ "). This tool is for educational use only and " ++
  "cannot provide a medical diagnosis. Please discuss any concerns with a " ++
  "qualified healthcare professional."

/-- Function `_basic_lifestyle_fallback` from `gemini_client.py` (lines 32-52):
a fixed first line plus one tier-dependent suggestion. -/
def basic_lifestyle_fallback (risk_level : String) : List String :=
  ["This tool does not give medical advice. For personalized guidance, please consult a doctor.",
   if risk_level = "Low" then
     "Maintain a heart-healthy lifestyle with regular physical activity, balanced diet, and avoiding smoking."
   else if risk_level = "Moderate" then
     "Consider speaking with a healthcare professional about blood pressure, cholesterol, exercise, and diet goals."
   else
     "It may be important to seek professional medical advice to review your risk factors and next steps."]

/-- Function `generate_explanation` from `gemini_client.py` (lines 55-101): fall back
when unconfigured, when the call raises, or when the (stripped) response
text is empty. -/
def generate_explanation (svc : GenService) (inputs : Row) (risk_score : ℚ)
    (risk_level : String) (top_features : List (String × ℚ))
    (language : String) : String :=
  if ¬ svc.configured then basic_explanation_fallback risk_level risk_score
  else
    match svc.generate_content
        ⟨.explanation, inputs, risk_score, risk_level, top_features, language⟩ with
    | .error _ => basic_explanation_fallback risk_level risk_score
    | .ok text =>
        let t := text.trim
        if t = "" then basic_explanation_fallback risk_level risk_score else t

/-- Python `ln.strip("- ")`: drop the characters `'-'` and `' '` from both
ends of the line. -/
def stripDashSpace (s : String) : String :=
  let isCut := fun c => c = '-' ∨ c = ' '
  ⟨((s.toList.dropWhile isCut).reverse.dropWhile isCut).reverse⟩

/-- Function `generate_lifestyle_suggestions` from `gemini_client.py`
(lines 104-151): on success, split the text into lines, keep the
non-blank ones stripped of leading/trailing dashes and spaces, and fall
back when nothing remains; fall back when unconfigured or on exception. -/
def generate_lifestyle_suggestions (svc : GenService) (inputs : Row)
    (risk_score : ℚ) (risk_level : String)
    (top_features : List (String × ℚ)) (language : String) : List String :=
  if ¬ svc.configured then basic_lifestyle_fallback risk_level
  else
    match svc.generate_content
        ⟨.lifestyle, inputs, risk_score, risk_level, top_features, language⟩ with
    | .error _ => basic_lifestyle_fallback risk_level
    | .ok text =>
        let lines := ((text.splitOn "\n").filter (fun ln => ln.trim ≠ "")).map
          (fun ln => (stripDashSpace ln).trim)
        let cleaned := lines.filter (fun ln => ln ≠ "")
        if cleaned = [] then basic_lifestyle_fallback risk_level else cleaned

/-- Function `generate_followup_plan` from `gemini_client.py` (lines 154-217):
three distinct fixed texts for the unconfigured, empty-response and
exception cases. -/
def generate_followup_plan (svc : GenService) (inputs : Row) (risk_score : ℚ)
    (risk_level : String) (top_features : List (String × ℚ))
    (language : String) : String :=
  if ¬ svc.configured then
    "Consider scheduling an appointment with a qualified healthcare professional to review your blood pressure, cholesterol, lifestyle, and any symptoms. Bring this assessment result and ask what additional tests or monitoring they recommend."
  else
    match svc.generate_content
        ⟨.followup, inputs, risk_score, risk_level, top_features, language⟩ with
    | .error _ =>
        "Consider scheduling an appointment with a qualified healthcare professional to review your results, ask about further tests, and discuss safe lifestyle options."
    | .ok text =>
        let t := text.trim
        if t = "" then
          "Consider discussing this assessment with a doctor, asking about further evaluation, lifestyle options, and how often your heart health should be monitored."
        else t

/-- Function `generate_prescription_summary` from `gemini_client.py`
(lines 220-299): same shape as the follow-up plan with its own fixed
texts. -/
def generate_prescription_summary (svc : GenService) (inputs : Row)
    (risk_score : ℚ) (risk_level : String)
    (top_features : List (String × ℚ)) (language : String) : String :=
  if ¬ svc.configured then
    "This summary is intended to help structure a discussion with a qualified healthcare professional. It does not recommend specific medications or doses. Please consult your doctor for any treatment decisions."
  else
    match svc.generate_content
        ⟨.prescription, inputs, risk_score, risk_level, top_features, language⟩ with
    | .error _ =>
        "This high-level summary is intended for discussion with a healthcare professional and does not include medication names or dosages. Please consult your doctor for individual advice."
    | .ok text =>
        let t := text.trim
        if t = "" then
          "Discuss these results with a qualified doctor, who can review risk factors, advise on lifestyle, and decide if any tests or treatments are appropriate for you."
        else t

/-! ### The prediction endpoint (`POST /predict`, `predict_routes.py`) -/

/-- The pretrained artifacts loaded once at startup (`predict_routes.py`
lines 19-26).  They are opaque third-party objects; the route only calls
them:
* `transform` — `preprocessor.transform(df)`, producing the processed
  feature vector or raising the `ValueError` the route catches
  (the one rejection mode the route, and §4.1 of the design, handle);
* `feature_names` — `preprocessor.get_feature_names_out()`;
* `log_predict_proba` / `rf_predict_proba` / `xgb_predict_proba` —
  `model.predict_proba(processed)[0][1]`, the positive-class probability
  of the single row, for each of the three classifiers;
* `shap_values` — the body of the SHAP `try:` block up to the raw
  1-D vector for the first sample (`explainer.shap_values`, list/array
  normalization, dense conversion), or the exception message when any of
  it raises. -/
structure Models where
  transform : Row → Except String (List ℚ)
  feature_names : List String
  log_predict_proba : List ℚ → ℚ
  rf_predict_proba : List ℚ → ℚ
  xgb_predict_proba : List ℚ → ℚ
  shap_values : List ℚ → Except String (List ℚ)

/-- The optional `lifestyle` sub-mapping of the request body; the route
reads exactly these four keys when persisting. -/
structure Lifestyle where
  smoking_status : Option String := none
  diabetes_status : Option String := none
  family_history_diabetes : Option String := none
  pregnancy_status : Option String := none
deriving DecidableEq, Repr

/-- A `/predict` request body after the first lines of the route:
`patientName` is `raw.get("patientName") or raw.get("patient_name")`,
`features` is `raw.get("features") or raw`, `lifestyle` is
`raw.get("lifestyle") or {}`. -/
structure RawRequest where
  patientName : Option String := none
  features : Row := {}
  lifestyle : Lifestyle := {}
deriving DecidableEq, Repr

/-- The 200 response body assembled at `predict_routes.py` lines 169-182.
`shap_error` is `some e` exactly when the key is present in the JSON
(the source adds it only `if shap_error:`, i.e. for a truthy message). -/
structure PredictResponse where
  input : Row
  risk_score : ℚ
  risk_level : String
  top_features : List (String × ℚ)
  explanation_text : String
  lifestyle_suggestions : List String
  followup_plan : String
  prescription_summary : String
  lifestyle : Lifestyle
  patientName : Option String
  shap_error : Option String
deriving DecidableEq, Repr

/-- The document handed to `predictions_collection.insert_one`
(`predict_routes.py` lines 191-216), with `created_at` as an abstract
tick. -/
structure StoredRecord where
  created_at : Nat
  userId : Option String
  doctorId : Option String
  patientId : Option String
  patientName : Option String
  input : Row
  risk_score : ℚ
  risk_level : String
  smoking_status : Option String
  diabetes_status : Option String
  family_history_diabetes : Option String
  pregnancy_status : Option String
  top_features : List (String × ℚ)
  explanation_text : String
  lifestyle_suggestions : List String
  followup_plan : String
  prescription_summary : String
deriving DecidableEq, Repr

/-- Outcome of the `/predict` route: the 400 JSON
`{"msg": "Preprocessing failed", "error": str(e)}` when the transform
raises, or the 200 response together with the document passed to the
(best-effort, failure-swallowing) history insert. -/
inductive PredictOutcome where
  | badRequest (msg : String) (err : String)
  | ok (resp : PredictResponse) (record : StoredRecord)
deriving DecidableEq, Repr

/-- HTTP status of a `PredictOutcome`. -/
def PredictOutcome.status : PredictOutcome → Nat
  | .badRequest _ _ => 400
  | .ok _ _ => 200

/-- The response body when the outcome is a 200. -/
def PredictOutcome.response? : PredictOutcome → Option PredictResponse
  | .badRequest _ _ => none
  | .ok r _ => some r

/-- The persisted document when the outcome is a 200. -/
def PredictOutcome.record? : PredictOutcome → Option StoredRecord
  | .badRequest _ _ => none
  | .ok _ rec => some rec

/-- The identity extraction at `predict_routes.py` lines 157-167: the
email of the caller from a well-formed, decodable bearer token, else `None`
(an invalid token is swallowed, never an error). -/
def bearer_email : AuthHeader → Option String
  | .bearer t =>
      match decode_token t with
      | .ok p => p.email
      | .error _ => none
  | _ => none

/-- The per-doctor patient key (`predict_routes.py` lines 186-189):
`f"{user_email}::{patient_name.strip().lower()}"` when both the email and
the patient name are truthy (non-empty) strings, else `None`. -/
def patientKey (user_email : Option String) (patient_name : Option String) :
    Option String :=
  match user_email, patient_name with
  | some e, some n =>
      if e ≠ "" ∧ n ≠ "" then some (e ++ "::" ++ n.trim.toLower) else none
  | _, _ => none

/-- Function `predict_risk` from `predict_routes.py` (lines 28-221): derive missing
columns, preprocess (400 on `ValueError`), average the positive-class
probabilities of the three classifiers, tier the score at 0.33/0.66, extract SHAP
attributions best-effort, generate the four narratives, extract the
caller identity best-effort, and return both the JSON response and the
persisted history document.  `now` stands for `datetime.utcnow()`. -/
def predict_risk (M : Models) (svc : GenService) (auth : AuthHeader)
    (raw : RawRequest) (now : Nat) : PredictOutcome :=
  let df := deriveColumns raw.features
  match M.transform df with
  | .error e => .badRequest "Preprocessing failed" e
  | .ok processed =>
      let p1 := M.log_predict_proba processed
      let p2 := M.rf_predict_proba processed
      let p3 := M.xgb_predict_proba processed
      let final_score := (p1 + p2 + p3) / 3
      let risk :=
        if final_score < 0.33 then "Low"
        else if final_score < 0.66 then "Moderate"
        else "High"
      let shapRes := M.shap_values processed
      let top_features :=
        match shapRes with
        | .ok v => get_top_features v M.feature_names 5
        | .error _ => []
      let shap_error : Option String :=
        match shapRes with
        | .ok _ => none
        | .error e => some e
      let explanation_text :=
        generate_explanation svc raw.features final_score risk top_features "en"
      let lifestyle_suggestions :=
        generate_lifestyle_suggestions svc raw.features final_score risk
          top_features "en"
      let followup_plan :=
        generate_followup_plan svc raw.features final_score risk
          top_features "en"
      let prescription_summary :=
        generate_prescription_summary svc raw.features final_score risk
          top_features "en"
      let user_email := bearer_email auth
      let resp : PredictResponse :=
        { input := raw.features
          risk_score := final_score
          risk_level := risk
          top_features := top_features
          explanation_text := explanation_text
          lifestyle_suggestions := lifestyle_suggestions
          followup_plan := followup_plan
          prescription_summary := prescription_summary
          lifestyle := raw.lifestyle
          patientName := raw.patientName
          shap_error :=
            match shap_error with
            | some e => if e = "" then none else some e
            | none => none }
      let record : StoredRecord :=
        { created_at := now
          userId := user_email
          doctorId := user_email
          patientId := patientKey user_email raw.patientName
          patientName := raw.patientName
          input := raw.features
          risk_score := final_score
          risk_level := risk
          smoking_status := raw.lifestyle.smoking_status
          diabetes_status := raw.lifestyle.diabetes_status
          family_history_diabetes := raw.lifestyle.family_history_diabetes
          pregnancy_status := raw.lifestyle.pregnancy_status
          top_features := top_features
          explanation_text := explanation_text
          lifestyle_suggestions := lifestyle_suggestions
          followup_plan := followup_plan
          prescription_summary := prescription_summary }
      .ok resp record

/-! ### History and doctor endpoints (`predict_routes.py` lines 222-425) -/

/-- A stored prediction document as the query endpoints see it: its Mongo
`_id` (abstracted to a `Nat`) plus the stored record fields. -/
structure DbRecord where
  id : Nat
  doc : StoredRecord
deriving DecidableEq, Repr

/-- A JSON endpoint outcome: a 200 payload or an error status with its
message. -/
inductive Resp (α : Type) where
  | ok (a : α)
  | err (status : Nat) (msg : String)
deriving DecidableEq, Repr

/-- HTTP status of a `Resp` (`ok` is a 200). -/
def Resp.status : Resp α → Nat
  | .ok _ => 200
  | .err s _ => s

/-- The shared auth prologue of the two doctor endpoints
(`predict_routes.py` lines 271-286 and 321-336, which are verbatim
identical): 401 without a `Bearer` header, 401 when `decode_token`
raises, read `email` and `role` (the latter defaulting to `"Doctor"`
when the claim is absent), 401 when `email` is falsy, 403 when the role
is not `"Doctor"`. -/
def doctor_gate (auth : AuthHeader) : Resp String :=
  match auth with
  | .missing => .err 401 "Authorization header missing"
  | .malformed _ => .err 401 "Authorization header missing"
  | .bearer t =>
      match decode_token t with
      | .error e => .err 401 ("Invalid token: " ++ e)
      | .ok p =>
          let role := p.role.getD "Doctor"
          match p.email with
          | none => .err 401 "Unauthorized"
          | some e =>
              if e = "" then .err 401 "Unauthorized"
              else if role ≠ "Doctor" then .err 403 "Forbidden"
              else .ok e

/-- One row of the `/doctor/patients` aggregate. -/
structure PatientSummary where
  patientId : Option String
  patientName : Option String
  lastVisit : Option Nat
  assessmentCount : Nat
deriving DecidableEq, Repr

/-- Descending order on `lastVisit`, the `{"$sort": {"lastVisit": -1}}`
stage. -/
def lastVisitGE (a b : PatientSummary) : Prop :=
  b.lastVisit.getD 0 ≤ a.lastVisit.getD 0

instance : DecidableRel lastVisitGE := fun a b =>
  inferInstanceAs (Decidable (b.lastVisit.getD 0 ≤ a.lastVisit.getD 0))

/-- The aggregation pipeline of `get_doctor_patients`
(`predict_routes.py` lines 289-300): match the records of the doctor with a
non-null `patientId`, group by `patientId` taking a first `patientName`,
the max `created_at` and a count, then sort by last visit descending. -/
def doctor_patients_agg (db : List DbRecord) (email : String) :
    List PatientSummary :=
  let matched := db.filter
    (fun r => r.doc.doctorId = some email ∧ r.doc.patientId ≠ none)
  let keys := (matched.map (fun r => r.doc.patientId)).dedup
  let groups := keys.map (fun k =>
    let g := matched.filter (fun r => r.doc.patientId = k)
    { patientId := k
      patientName := (g.head?).bind (fun r => r.doc.patientName)
      lastVisit := (g.map (fun r => r.doc.created_at)).max?
      assessmentCount := g.length : PatientSummary })
  List.insertionSort lastVisitGE groups

/-- Endpoint `get_doctor_patients` (`predict_routes.py` lines 264-315): the doctor
gate followed by the aggregate. -/
def get_doctor_patients (db : List DbRecord) (auth : AuthHeader) :
    Resp (List PatientSummary) :=
  match doctor_gate auth with
  | .err s m => .err s m
  | .ok email => .ok (doctor_patients_agg db email)

/-- Descending order on `created_at`, the `.sort("created_at", -1)`. -/
def createdGE (a b : DbRecord) : Prop :=
  b.doc.created_at ≤ a.doc.created_at

instance : DecidableRel createdGE := fun a b =>
  inferInstanceAs (Decidable (b.doc.created_at ≤ a.doc.created_at))

/-- The 200 payload of `get_doctor_patient_profile`. -/
structure PatientProfile where
  patientId : String
  patientName : Option String
  assessmentCount : Nat
  firstVisit : Option Nat
  lastVisit : Option Nat
  history : List DbRecord
deriving DecidableEq, Repr

/-- Endpoint `get_doctor_patient_profile` (`predict_routes.py` lines 318-388): the
doctor gate, then the records of the doctor for this `patientId` sorted
newest first, with the name from the first record, the count, and min/max visit
times. -/
def get_doctor_patient_profile (db : List DbRecord) (auth : AuthHeader)
    (patient_id : String) : Resp PatientProfile :=
  match doctor_gate auth with
  | .err s m => .err s m
  | .ok email =>
      let hist := List.insertionSort createdGE (db.filter
        (fun r => r.doc.doctorId = some email ∧
          r.doc.patientId = some patient_id))
      .ok
        { patientId := patient_id
          patientName := (hist.head?).bind (fun r => r.doc.patientName)
          assessmentCount := hist.length
          firstVisit := (hist.map (fun r => r.doc.created_at)).min?
          lastVisit := (hist.map (fun r => r.doc.created_at)).max?
          history := hist }

/-- The `<item_id>` URL segment of the delete endpoint: `oid n` when
`ObjectId(item_id)` parses, `invalid` when it raises. -/
inductive ItemId where
  | invalid (s : String)
  | oid (n : Nat)
deriving DecidableEq, Repr

/-- The Mongo `delete_one` call: remove the first document matching the filter
(here `{"_id": oid, "userId": email}`), reporting how many (0 or 1) were
deleted. -/
def delete_one (db : List DbRecord) (oid : Nat) (email : String) :
    Nat × List DbRecord :=
  match db.find? (fun r => r.id = oid ∧ r.doc.userId = some email) with
  | none => (0, db)
  | some r => (1, db.erase r)

/-- Endpoint `delete_history_item` (`predict_routes.py` lines 391-425): 401 without
a bearer header, 401 on decode failure or falsy email, 400 on an
unparsable id, then delete the caller-owned document with that id — 404
when nothing matched, 200 otherwise.  Returns the response together with
the database after the call. -/
def delete_history_item (db : List DbRecord) (auth : AuthHeader)
    (item_id : ItemId) : Resp Unit × List DbRecord :=
  match auth with
  | .missing => (.err 401 "Authorization header missing", db)
  | .malformed _ => (.err 401 "Authorization header missing", db)
  | .bearer t =>
      match decode_token t with
      | .error e => (.err 401 ("Invalid token: " ++ e), db)
      | .ok p =>
          match p.email with
          | none => (.err 401 "Unauthorized", db)
          | some email =>
              if email = "" then (.err 401 "Unauthorized", db)
              else
                match item_id with
                | .invalid _ => (.err 400 "Invalid id", db)
                | .oid oid =>
                    let (deleted_count, db2) := delete_one db oid email
                    if deleted_count = 0 then (.err 404 "Item not found", db2)
                    else (.ok (), db2)

/-! ### Accounts (`auth_routes.py`) -/

/-- A user document as inserted by `signup`. -/
structure User where
  name : String
  email : String
  password : String
  role : String
deriving DecidableEq, Repr

/-- A `/signup` body: `name`, `email`, `password` are accessed with
`data[...]` (required), while `role` uses `data.get("role", "Doctor")` —
`none` models the field being omitted. -/
structure SignupBody where
  name : String
  email : String
  password : String
  role : Option String := none
deriving DecidableEq, Repr

/-- Endpoint `signup` from `auth_routes.py` (lines 8-25): 400 when a user with the
email exists, else insert the user with the password hashed and the role
defaulted to `"Doctor"`.  `hash` abstracts `utils.hashing.hash_password`
(not part of the sources; `verify_password` below is its matching
check). -/
def signup (users : List User) (hash : String → String)
    (data : SignupBody) : Resp Unit × List User :=
  if users.any (fun u => u.email = data.email) then
    (.err 400 "User already exists", users)
  else
    (.ok (),
     users ++ [{ name := data.name, email := data.email,
                 password := hash data.password,
                 role := data.role.getD "Doctor" }])

/-- Modelled from the spec: `verify_password` lives in
`utils/hashing.py`, which is not among the sources.  Per §6 of the design
("credential check (404 no user, 401 bad password)"), it succeeds exactly
when the submitted password hashes to the stored digest. -/
def verify_password (hash : String → String) (password stored : String) :
    Prop := hash password = stored

instance (hash : String → String) (p s : String) :
    Decidable (verify_password hash p s) :=
  inferInstanceAs (Decidable (hash p = s))

/-- The 200 body of `/login`. -/
structure LoginResult where
  token : Token
  name : Option String
  role : Option String
deriving DecidableEq, Repr

/-- Endpoint `login` from `auth_routes.py` (lines 28-44): 404 when no user has the
email, 401 when the password check fails, else a token signed over
`{email, name, role}`. -/
def login (users : List User) (hash : String → String)
    (email password : String) : Resp LoginResult :=
  match users.find? (fun u => u.email = email) with
  | none => .err 404 "User not found"
  | some u =>
      if ¬ verify_password hash password u.password then
        .err 401 "Incorrect password"
      else
        .ok { token := generate_token u.email (some u.name) (some u.role)
              name := some u.name
              role := some u.role }

/-! ## Claims -/

/-- C2: for every raw feature mapping, each of the three categorical
columns is derived only when its source column exists and the target does
not, with the stated bins (`"unknown"` on non-numeric input); `thalch`
receives the value of `thalach` when the former is absent and the latter
present; target columns already present are left unchanged. -/
theorem C2_column_derivation (df : Row) :
    ((deriveColumns df).thalch =
      if df.thalach.isSome ∧ df.thalch = none then df.thalach
      else df.thalch) ∧
    ((deriveColumns df).age_group =
      if df.age.isSome ∧ df.age_group = none then
        df.age.map (fun a => FVal.str (age_group a))
      else df.age_group) ∧
    ((deriveColumns df).bp_cat =
      if df.trestbps.isSome ∧ df.bp_cat = none then
        df.trestbps.map (fun b => FVal.str (bp_cat b))
      else df.bp_cat) ∧
    ((deriveColumns df).chol_cat =
      if df.chol.isSome ∧ df.chol_cat = none then
        df.chol.map (fun c => FVal.str (chol_cat c))
      else df.chol_cat) ∧
    (∀ a : ℚ, age_group (.num a) =
      if a < 31 then "0-30" else if a < 46 then "31-45"
      else if a < 61 then "46-60" else "61+") ∧
    (∀ s, age_group (.str s) = "unknown") ∧
    (∀ b : ℚ, bp_cat (.num b) =
      if b < 120 then "normal" else if b < 130 then "elevated"
      else if b < 140 then "hypertension1" else "hypertension2") ∧
    (∀ s, bp_cat (.str s) = "unknown") ∧
    (∀ c : ℚ, chol_cat (.num c) =
      if c < 200 then "normal" else if c < 240 then "borderline"
      else "high") ∧
    (∀ s, chol_cat (.str s) = "unknown") := by
  refine ⟨?_, ?_, ?_, ?_, fun _ => rfl, fun _ => rfl, fun _ => rfl,
    fun _ => rfl, fun _ => rfl, fun _ => rfl⟩ <;>
  · rcases df with ⟨a, t, c, th, tl, ag, bp, cc⟩
    cases a <;> cases ag <;> cases t <;> cases bp <;> cases c <;>
      cases cc <;> cases th <;> cases tl <;>
      simp [deriveColumns]

/-- C3: for every SHAP vector and feature-name sequence, the attribution
list returned by `get_top_features` with `top = 5` has length at most 5,
the absolute contributions of its entries are non-increasing from first to
last, and each entry pairs a feature name with the signed contribution at
some index of the vector. -/
theorem C3_top_features_sorted (sample_shap : List ℚ)
    (fnames : List String) :
    (get_top_features sample_shap fnames 5).length ≤ 5 ∧
    List.Pairwise (fun x y : String × ℚ => |y.2| ≤ |x.2|)
      (get_top_features sample_shap fnames 5) ∧
    ∀ x ∈ get_top_features sample_shap fnames 5,
      ∃ i < sample_shap.length,
        x = (fnames.getD i "", sample_shap.getD i 0) := by
  refine ⟨?_, ?_, ?_⟩
  · simp only [get_top_features, List.length_take]
    exact min_le_left _ _
  · have hs := List.sorted_insertionSort absGE
      ((List.range sample_shap.length).map
        (fun i => (fnames.getD i "", sample_shap.getD i 0)))
    exact hs.sublist (List.take_sublist 5 _)
  · intro x hx
    have hmem : x ∈ (List.range sample_shap.length).map
        (fun i => (fnames.getD i "", sample_shap.getD i 0)) := by
      have h1 := (List.take_sublist 5 _).mem hx
      simpa [List.mem_insertionSort] using h1
    obtain ⟨i, hi, rfl⟩ := List.mem_map.1 hmem
    exact ⟨i, List.mem_range.1 hi, rfl⟩

/-- Computation lemma: the ensemble score the route computes from the
processed row (`(p1 + p2 + p3) / 3`). -/
def ensemble_score (M : Models) (proc : List ℚ) : ℚ :=
  (M.log_predict_proba proc + M.rf_predict_proba proc +
    M.xgb_predict_proba proc) / 3

/-- The tier labelling the route applies to the final score. -/
def risk_tier (s : ℚ) : String :=
  if s < 0.33 then "Low" else if s < 0.66 then "Moderate" else "High"

/-- Unfolding of `predict_risk` on a row the preprocessor accepts: the
outcome is the 200 response and stored record, with every field spelled
out. -/
theorem predict_risk_transform_ok (M : Models) (svc : GenService)
    (auth : AuthHeader) (raw : RawRequest) (now : Nat) (proc : List ℚ)
    (h : M.transform (deriveColumns raw.features) = .ok proc) :
    predict_risk M svc auth raw now =
      .ok
        { input := raw.features
          risk_score := ensemble_score M proc
          risk_level := risk_tier (ensemble_score M proc)
          top_features :=
            match M.shap_values proc with
            | .ok v => get_top_features v M.feature_names 5
            | .error _ => []
          explanation_text :=
            generate_explanation svc raw.features (ensemble_score M proc)
              (risk_tier (ensemble_score M proc))
              (match M.shap_values proc with
               | .ok v => get_top_features v M.feature_names 5
               | .error _ => []) "en"
          lifestyle_suggestions :=
            generate_lifestyle_suggestions svc raw.features
              (ensemble_score M proc) (risk_tier (ensemble_score M proc))
              (match M.shap_values proc with
               | .ok v => get_top_features v M.feature_names 5
               | .error _ => []) "en"
          followup_plan :=
            generate_followup_plan svc raw.features (ensemble_score M proc)
              (risk_tier (ensemble_score M proc))
              (match M.shap_values proc with
               | .ok v => get_top_features v M.feature_names 5
               | .error _ => []) "en"
          prescription_summary :=
            generate_prescription_summary svc raw.features
              (ensemble_score M proc) (risk_tier (ensemble_score M proc))
              (match M.shap_values proc with
               | .ok v => get_top_features v M.feature_names 5
               | .error _ => []) "en"
          lifestyle := raw.lifestyle
          patientName := raw.patientName
          shap_error :=
            match (match M.shap_values proc with
                   | .ok _ => (none : Option String)
                   | .error e => some e) with
            | some e => if e = "" then none else some e
            | none => none }
        { created_at := now
          userId := bearer_email auth
          doctorId := bearer_email auth
          patientId := patientKey (bearer_email auth) raw.patientName
          patientName := raw.patientName
          input := raw.features
          risk_score := ensemble_score M proc
          risk_level := risk_tier (ensemble_score M proc)
          smoking_status := raw.lifestyle.smoking_status
          diabetes_status := raw.lifestyle.diabetes_status
          family_history_diabetes := raw.lifestyle.family_history_diabetes
          pregnancy_status := raw.lifestyle.pregnancy_status
          top_features :=
            match M.shap_values proc with
            | .ok v => get_top_features v M.feature_names 5
            | .error _ => []
          explanation_text :=
            generate_explanation svc raw.features (ensemble_score M proc)
              (risk_tier (ensemble_score M proc))
              (match M.shap_values proc with
               | .ok v => get_top_features v M.feature_names 5
               | .error _ => []) "en"
          lifestyle_suggestions :=
            generate_lifestyle_suggestions svc raw.features
              (ensemble_score M proc) (risk_tier (ensemble_score M proc))
              (match M.shap_values proc with
               | .ok v => get_top_features v M.feature_names 5
               | .error _ => []) "en"
          followup_plan :=
            generate_followup_plan svc raw.features (ensemble_score M proc)
              (risk_tier (ensemble_score M proc))
              (match M.shap_values proc with
               | .ok v => get_top_features v M.feature_names 5
               | .error _ => []) "en"
          prescription_summary :=
            generate_prescription_summary svc raw.features
              (ensemble_score M proc) (risk_tier (ensemble_score M proc))
              (match M.shap_values proc with
               | .ok v => get_top_features v M.feature_names 5
               | .error _ => []) "en" } := by
  simp only [predict_risk, h, ensemble_score, risk_tier]

/-- C1: for every `/predict` request whose (derived) feature row the
preprocessor accepts, the returned `risk_score` is the unweighted mean of
the positive-class probabilities of the three classifiers, lies in `[0,1]`
whenever each probability does, and `risk_level` follows the 0.33/0.66
tier boundaries (Low below 0.33, Moderate from 0.33 up to 0.66, High from
0.66). -/
theorem C1_ensemble_score_and_tiers (M : Models) (svc : GenService)
    (auth : AuthHeader) (raw : RawRequest) (now : Nat) (proc : List ℚ)
    (h : M.transform (deriveColumns raw.features) = .ok proc) :
    ∃ resp rec, predict_risk M svc auth raw now = .ok resp rec ∧
      resp.risk_score =
        (M.log_predict_proba proc + M.rf_predict_proba proc +
          M.xgb_predict_proba proc) / 3 ∧
      (0 ≤ M.log_predict_proba proc → M.log_predict_proba proc ≤ 1 →
        0 ≤ M.rf_predict_proba proc → M.rf_predict_proba proc ≤ 1 →
        0 ≤ M.xgb_predict_proba proc → M.xgb_predict_proba proc ≤ 1 →
        0 ≤ resp.risk_score ∧ resp.risk_score ≤ 1) ∧
      (resp.risk_score < 0.33 → resp.risk_level = "Low") ∧
      (0.33 ≤ resp.risk_score → resp.risk_score < 0.66 →
        resp.risk_level = "Moderate") ∧
      (0.66 ≤ resp.risk_score → resp.risk_level = "High") := by
  refine ⟨_, _, predict_risk_transform_ok M svc auth raw now proc h,
    rfl, ?_, ?_, ?_, ?_⟩
  · intro h1 h2 h3 h4 h5 h6
    unfold ensemble_score
    constructor
    · positivity
    · rw [div_le_one (by norm_num)]
      linarith
  · intro hlt
    simp only [risk_tier, if_pos hlt]
  · intro hge hlt
    simp only [risk_tier, if_neg (not_lt.2 hge), if_pos hlt]
  · intro hge
    have h1 : ¬ ensemble_score M proc < 0.33 := by
      simp only [not_lt]; linarith
    have h2 : ¬ ensemble_score M proc < 0.66 := not_lt.2 hge
    simp only [risk_tier, if_neg h1, if_neg h2]

/-- A concrete well-behaved set of model artifacts for witnesses: the
transform accepts every row, each classifier reports probability 1/2,
and SHAP succeeds. -/
def M0 : Models :=
  { transform := fun _ => .ok [1]
    feature_names := ["f0"]
    log_predict_proba := fun _ => 1/2
    rf_predict_proba := fun _ => 1/2
    xgb_predict_proba := fun _ => 1/2
    shap_values := fun _ => .ok [1/4] }

/-- A concrete unconfigured generative service (no API key). -/
def svc0 : GenService :=
  { configured := false
    generate_content := fun _ => .error "service unavailable" }

/-- Witness for C1: at the concrete artifacts `M0` the preprocessor
accepts the empty request, and the score is the mean of the three 1/2
probabilities, within the bounds, with the Moderate tier. -/
theorem C1_witness :
    M0.transform (deriveColumns ({} : RawRequest).features) = .ok [1] ∧
    (∃ resp rec, predict_risk M0 svc0 .missing {} 0 = .ok resp rec ∧
      resp.risk_score =
        (M0.log_predict_proba [1] + M0.rf_predict_proba [1] +
          M0.xgb_predict_proba [1]) / 3 ∧
      (0 ≤ M0.log_predict_proba [1] → M0.log_predict_proba [1] ≤ 1 →
        0 ≤ M0.rf_predict_proba [1] → M0.rf_predict_proba [1] ≤ 1 →
        0 ≤ M0.xgb_predict_proba [1] → M0.xgb_predict_proba [1] ≤ 1 →
        0 ≤ resp.risk_score ∧ resp.risk_score ≤ 1) ∧
      (resp.risk_score < 0.33 → resp.risk_level = "Low") ∧
      (0.33 ≤ resp.risk_score → resp.risk_score < 0.66 →
        resp.risk_level = "Moderate") ∧
      (0.66 ≤ resp.risk_score → resp.risk_level = "High")) :=
  ⟨rfl, C1_ensemble_score_and_tiers M0 svc0 .missing {} 0 [1] rfl⟩

/-- C4: every `/predict` request whose row the fitted transform rejects
receives the 400 response carrying the diagnostic message and the error
text, and never a 500. -/
theorem C4_preprocessing_failure_is_400 (M : Models) (svc : GenService)
    (auth : AuthHeader) (raw : RawRequest) (now : Nat) (e : String)
    (h : M.transform (deriveColumns raw.features) = .error e) :
    predict_risk M svc auth raw now = .badRequest "Preprocessing failed" e ∧
    (predict_risk M svc auth raw now).status = 400 ∧
    (predict_risk M svc auth raw now).status ≠ 500 := by
  have hb : predict_risk M svc auth raw now =
      .badRequest "Preprocessing failed" e := by
    simp only [predict_risk, h]
  refine ⟨hb, ?_, ?_⟩ <;> rw [hb] <;> simp [PredictOutcome.status]

/-- A concrete preprocessor that rejects every row, as when a required
raw column is missing. -/
def M4 : Models :=
  { M0 with transform := fun _ => .error "columns are missing: cp" }

/-- Witness for C4: the rejecting preprocessor `M4` yields the 400 with
its diagnostic, not a 500. -/
theorem C4_witness :
    M4.transform (deriveColumns ({} : RawRequest).features) =
      .error "columns are missing: cp" ∧
    (predict_risk M4 svc0 .missing {} 0 =
        .badRequest "Preprocessing failed" "columns are missing: cp" ∧
      (predict_risk M4 svc0 .missing {} 0).status = 400 ∧
      (predict_risk M4 svc0 .missing {} 0).status ≠ 500) :=
  ⟨rfl, C4_preprocessing_failure_is_400 M4 svc0 .missing {} 0
    "columns are missing: cp" rfl⟩

/-- C7: a `/predict` call whose bearer token is absent or fails to decode
behaves exactly like an unauthenticated call — the prediction succeeds
and the persisted record carries no identity (`userId`, `doctorId`,
`patientId` all null). -/
theorem C7_auth_failure_never_blocks (M : Models) (svc : GenService)
    (auth : AuthHeader) (raw : RawRequest) (now : Nat) (proc : List ℚ)
    (h : M.transform (deriveColumns raw.features) = .ok proc)
    (ha : auth = .missing ∨
      ∃ t e, auth = .bearer t ∧ decode_token t = .error e) :
    predict_risk M svc auth raw now = predict_risk M svc .missing raw now ∧
    ∃ resp rec, predict_risk M svc auth raw now = .ok resp rec ∧
      rec.userId = none ∧ rec.doctorId = none ∧ rec.patientId = none := by
  have hb : bearer_email auth = none := by
    rcases ha with rfl | ⟨t, e, rfl, ht⟩
    · rfl
    · simp [bearer_email, ht]
  constructor
  · rw [predict_risk_transform_ok M svc auth raw now proc h,
      predict_risk_transform_ok M svc .missing raw now proc h, hb]
    rfl
  · refine ⟨_, _, predict_risk_transform_ok M svc auth raw now proc h,
      hb, hb, ?_⟩
    show patientKey (bearer_email auth) raw.patientName = none
    rw [hb]
    cases raw.patientName <;> rfl

/-- Witness for C7: a bearer token whose decode raises is treated exactly
like a missing header, and the stored identity fields are null. -/
theorem C7_witness :
    M0.transform (deriveColumns ({} : RawRequest).features) = .ok [1] ∧
    ((.bearer (.forged "bad signature") : AuthHeader) = .missing ∨
      ∃ t e, (.bearer (.forged "bad signature") : AuthHeader) = .bearer t ∧
        decode_token t = .error e) ∧
    (predict_risk M0 svc0 (.bearer (.forged "bad signature")) {} 0 =
        predict_risk M0 svc0 .missing {} 0 ∧
      ∃ resp rec,
        predict_risk M0 svc0 (.bearer (.forged "bad signature")) {} 0 =
          .ok resp rec ∧
        rec.userId = none ∧ rec.doctorId = none ∧ rec.patientId = none) :=
  ⟨rfl, Or.inr ⟨.forged "bad signature", "bad signature", rfl, rfl⟩,
    C7_auth_failure_never_blocks M0 svc0 (.bearer (.forged "bad signature"))
      {} 0 [1] rfl
      (Or.inr ⟨.forged "bad signature", "bad signature", rfl, rfl⟩)⟩

/-- C8 (amended): if attribution extraction raises during a `/predict`
call, the request still succeeds with `top_features` empty, and the
response carries the error message in a `shap_error` field exactly when
that message is non-empty (the source adds the key only `if shap_error:`,
so a falsy empty message is dropped). -/
theorem C8_shap_failure_best_effort (M : Models) (svc : GenService)
    (auth : AuthHeader) (raw : RawRequest) (now : Nat) (proc : List ℚ)
    (e : String)
    (h : M.transform (deriveColumns raw.features) = .ok proc)
    (hs : M.shap_values proc = .error e) :
    ∃ resp rec, predict_risk M svc auth raw now = .ok resp rec ∧
      resp.top_features = [] ∧
      (e ≠ "" → resp.shap_error = some e) ∧
      (e = "" → resp.shap_error = none) ∧
      (predict_risk M svc auth raw now).status = 200 := by
  refine ⟨_, _, predict_risk_transform_ok M svc auth raw now proc h,
    ?_, ?_, ?_, ?_⟩
  · show (match M.shap_values proc with
      | Except.ok v => get_top_features v M.feature_names 5
      | Except.error _ => []) = []
    rw [hs]
  · intro hne
    show (match (match M.shap_values proc with
        | Except.ok _ => (none : Option String)
        | Except.error e => some e) with
      | some e => if e = "" then none else some e
      | none => none) = some e
    rw [hs]
    simp [hne]
  · intro he
    show (match (match M.shap_values proc with
        | Except.ok _ => (none : Option String)
        | Except.error e => some e) with
      | some e => if e = "" then none else some e
      | none => none) = none
    rw [hs]
    simp [he]
  · rw [predict_risk_transform_ok M svc auth raw now proc h]
    rfl

/-- A concrete explainer failure with a non-empty message. -/
def M8 : Models :=
  { M0 with shap_values := fun _ => .error "could not convert input" }

/-- Witness for C8 (amended): a SHAP failure with message
`"could not convert input"` yields a 200 with empty `top_features` and
the message in `shap_error`. -/
theorem C8_witness :
    M8.transform (deriveColumns ({} : RawRequest).features) = .ok [1] ∧
    M8.shap_values [1] = .error "could not convert input" ∧
    (∃ resp rec, predict_risk M8 svc0 .missing {} 0 = .ok resp rec ∧
      resp.top_features = [] ∧
      ("could not convert input" ≠ "" →
        resp.shap_error = some "could not convert input") ∧
      ("could not convert input" = "" → resp.shap_error = none) ∧
      (predict_risk M8 svc0 .missing {} 0).status = 200) :=
  ⟨rfl, rfl, C8_shap_failure_best_effort M8 svc0 .missing {} 0 [1]
    "could not convert input" rfl rfl⟩

/-- A concrete explainer failure whose exception stringifies to the empty
message, as with `raise Exception()`. -/
def M8e : Models :=
  { M0 with shap_values := fun _ => .error "" }

/-- Counterexample to C8 as stated: when the attribution failure carries
an empty message, the 200 response has empty `top_features` but no
`shap_error` field at all (`if shap_error:` is false for `""`), so the
response does not carry the error message. -/
theorem C8_counterexample :
    (predict_risk M8e svc0 .missing {} 0).response?.map
        (fun r => r.top_features) = some [] ∧
    (predict_risk M8e svc0 .missing {} 0).response?.map
        (fun r => r.shap_error) = some none ∧
    (predict_risk M8e svc0 .missing {} 0).status = 200 :=
  ⟨rfl, rfl, rfl⟩

/-- C9: each narrative generator returns non-empty text (a non-empty list
for the lifestyle case) whenever the generative service is unconfigured
or its call fails, the explanation and lifestyle cases substituting their
fixed fallback templates whose content varies with the risk tier; the
functions are total, so such failures never raise out of the request. -/
theorem C9_narrative_fallbacks (svc : GenService) (inputs : Row)
    (score : ℚ) (level : String) (tf : List (String × ℚ)) (lang : String)
    (h : svc.configured = false ∨
      ∀ a : PromptArgs, ∃ e, svc.generate_content a = .error e) :
    generate_explanation svc inputs score level tf lang =
      basic_explanation_fallback level score ∧
    basic_explanation_fallback level score ≠ "" ∧
    generate_lifestyle_suggestions svc inputs score level tf lang =
      basic_lifestyle_fallback level ∧
    basic_lifestyle_fallback level ≠ [] ∧
    generate_followup_plan svc inputs score level tf lang ≠ "" ∧
    generate_prescription_summary svc inputs score level tf lang ≠ "" ∧
    (∀ s : ℚ,
      basic_explanation_fallback "Low" s ≠
        basic_explanation_fallback "Moderate" s ∧
      basic_explanation_fallback "Low" s ≠
        basic_explanation_fallback "High" s ∧
      basic_explanation_fallback "Moderate" s ≠
        basic_explanation_fallback "High" s) ∧
    basic_lifestyle_fallback "Low" ≠ basic_lifestyle_fallback "Moderate" ∧
    basic_lifestyle_fallback "Low" ≠ basic_lifestyle_fallback "High" ∧
    basic_lifestyle_fallback "Moderate" ≠
      basic_lifestyle_fallback "High" := by
  have hexp : generate_explanation svc inputs score level tf lang =
      basic_explanation_fallback level score := by
    rcases Bool.eq_false_or_eq_true svc.configured with hc | hc
    · rcases h with hcf | herr
      · rw [hcf] at hc; exact absurd hc (by simp)
      · obtain ⟨e, he⟩ :=
          herr ⟨.explanation, inputs, score, level, tf, lang⟩
        simp [generate_explanation, hc, he]
    · simp [generate_explanation, hc]
  have hlif : generate_lifestyle_suggestions svc inputs score level tf
      lang = basic_lifestyle_fallback level := by
    rcases Bool.eq_false_or_eq_true svc.configured with hc | hc
    · rcases h with hcf | herr
      · rw [hcf] at hc; exact absurd hc (by simp)
      · obtain ⟨e, he⟩ :=
          herr ⟨.lifestyle, inputs, score, level, tf, lang⟩
        simp [generate_lifestyle_suggestions, hc, he]
    · simp [generate_lifestyle_suggestions, hc]
  have hexpne : basic_explanation_fallback level score ≠ "" := by
    intro hcon
    have := congrArg String.length hcon
    simp [basic_explanation_fallback, String.length_append] at this
    exact absurd this.2 (by decide)
  have hfol : generate_followup_plan svc inputs score level tf lang ≠ "" := by
    rcases Bool.eq_false_or_eq_true svc.configured with hc | hc
    · rcases h with hcf | herr
      · rw [hcf] at hc; exact absurd hc (by simp)
      · obtain ⟨e, he⟩ := herr ⟨.followup, inputs, score, level, tf, lang⟩
        simp [generate_followup_plan, hc, he]
    · simp [generate_followup_plan, hc]
  have hpre : generate_prescription_summary svc inputs score level tf
      lang ≠ "" := by
    rcases Bool.eq_false_or_eq_true svc.configured with hc | hc
    · rcases h with hcf | herr
      · rw [hcf] at hc; exact absurd hc (by simp)
      · obtain ⟨e, he⟩ :=
          herr ⟨.prescription, inputs, score, level, tf, lang⟩
        simp [generate_prescription_summary, hc, he]
    · simp [generate_prescription_summary, hc]
  refine ⟨hexp, hexpne, hlif, by simp [basic_lifestyle_fallback],
    hfol, hpre, ?_, by decide, by decide, by decide⟩
  intro s
  refine ⟨?_, ?_, ?_⟩ <;>
  · intro hcon
    have := congrArg String.length hcon
    simp [basic_explanation_fallback, String.length_append] at this
    exact absurd this (by decide)

/-- Witness for C9: the unconfigured service `svc0` exercises every
fallback path at the High tier. -/
theorem C9_witness :
    (svc0.configured = false ∨
      ∀ a : PromptArgs, ∃ e, svc0.generate_content a = .error e) ∧
    (generate_explanation svc0 {} (3/4) "High" [] "en" =
      basic_explanation_fallback "High" (3/4) ∧
    basic_explanation_fallback "High" (3/4) ≠ "" ∧
    generate_lifestyle_suggestions svc0 {} (3/4) "High" [] "en" =
      basic_lifestyle_fallback "High" ∧
    basic_lifestyle_fallback "High" ≠ [] ∧
    generate_followup_plan svc0 {} (3/4) "High" [] "en" ≠ "" ∧
    generate_prescription_summary svc0 {} (3/4) "High" [] "en" ≠ "" ∧
    (∀ s : ℚ,
      basic_explanation_fallback "Low" s ≠
        basic_explanation_fallback "Moderate" s ∧
      basic_explanation_fallback "Low" s ≠
        basic_explanation_fallback "High" s ∧
      basic_explanation_fallback "Moderate" s ≠
        basic_explanation_fallback "High" s) ∧
    basic_lifestyle_fallback "Low" ≠ basic_lifestyle_fallback "Moderate" ∧
    basic_lifestyle_fallback "Low" ≠ basic_lifestyle_fallback "High" ∧
    basic_lifestyle_fallback "Moderate" ≠
      basic_lifestyle_fallback "High") :=
  ⟨Or.inl rfl,
    C9_narrative_fallbacks svc0 {} (3/4) "High" [] "en" (Or.inl rfl)⟩

/-- Characterization of a successful doctor gate on a decodable token:
it grants only a truthy email whose role claim — defaulting to
`"Doctor"` when absent — is `"Doctor"`. -/
theorem doctor_gate_signed (pe pn pr : Option String) (e : String)
    (h : doctor_gate (.bearer (.signed ⟨pe, pn, pr⟩)) = .ok e) :
    pe = some e ∧ e ≠ "" ∧ pr.getD "Doctor" = "Doctor" := by
  cases pe with
  | none => simp [doctor_gate, decode_token] at h
  | some em =>
    by_cases hem : em = ""
    · subst hem
      simp [doctor_gate, decode_token] at h
    · by_cases hrole : pr.getD "Doctor" = "Doctor"
      · have hee : em = e := by
          simp [doctor_gate, decode_token, hem, hrole] at h
          exact h
        subst hee
        exact ⟨rfl, hem, hrole⟩
      · simp [doctor_gate, decode_token, hem, hrole] at h

/-- Every denial of the doctor gate is a 401 or a 403. -/
theorem doctor_gate_err_status (auth : AuthHeader) (s : Nat) (m : String)
    (h : doctor_gate auth = .err s m) : s = 401 ∨ s = 403 := by
  cases auth with
  | missing => simp [doctor_gate] at h; omega
  | malformed _ => simp [doctor_gate] at h; omega
  | bearer t =>
    cases t with
    | forged f => simp [doctor_gate, decode_token] at h; omega
    | signed p =>
      rcases p with ⟨pe, pn, pr⟩
      cases pe with
      | none => simp [doctor_gate, decode_token] at h; omega
      | some em =>
        by_cases hem : em = ""
        · subst hem; simp [doctor_gate, decode_token] at h; omega
        · by_cases hrole : pr.getD "Doctor" = "Doctor"
          · simp [doctor_gate, decode_token, hem, hrole] at h
          · simp [doctor_gate, decode_token, hem, hrole] at h; omega

/-- A decodable token with a truthy email and an explicit non-Doctor role
is refused with a 403. -/
theorem doctor_gate_forbidden (p : TokenPayload) (e r : String)
    (h1 : p.email = some e) (h2 : e ≠ "") (h3 : p.role = some r)
    (h4 : r ≠ "Doctor") :
    doctor_gate (.bearer (.signed p)) = .err 403 "Forbidden" := by
  simp [doctor_gate, decode_token, h1, h2, h3, h4]

/-- C5 (amended): the two doctor endpoints are served only for a
decodable bearer token with a truthy email whose role claim (defaulting
to `"Doctor"` when absent) is `"Doctor"`; and every decodable token
carrying a truthy email with an explicit role other than `"Doctor"` is
answered 403 by both. -/
theorem C5_doctor_role_gate (db : List DbRecord) (auth : AuthHeader)
    (pid : String) :
    ((get_doctor_patients db auth).status = 200 →
      ∃ p e, auth = .bearer (.signed p) ∧ p.email = some e ∧ e ≠ "" ∧
        p.role.getD "Doctor" = "Doctor") ∧
    ((get_doctor_patient_profile db auth pid).status = 200 →
      ∃ p e, auth = .bearer (.signed p) ∧ p.email = some e ∧ e ≠ "" ∧
        p.role.getD "Doctor" = "Doctor") ∧
    (∀ p e r, auth = .bearer (.signed p) → p.email = some e → e ≠ "" →
      p.role = some r → r ≠ "Doctor" →
      (get_doctor_patients db auth).status = 403 ∧
      (get_doctor_patient_profile db auth pid).status = 403) := by
  refine ⟨?_, ?_, ?_⟩
  · intro h200
    cases hg : doctor_gate auth with
    | err s m =>
      rw [get_doctor_patients, hg] at h200
      rcases doctor_gate_err_status auth s m hg with rfl | rfl <;>
        simp [Resp.status] at h200
    | ok e =>
      obtain ⟨t, rfl⟩ : ∃ t, auth = .bearer t := by
        cases auth with
        | missing => simp [doctor_gate] at hg
        | malformed s => simp [doctor_gate] at hg
        | bearer t => exact ⟨t, rfl⟩
      obtain ⟨p, rfl⟩ : ∃ p, t = Token.signed p := by
        cases t with
        | forged f => simp [doctor_gate, decode_token] at hg
        | signed p => exact ⟨p, rfl⟩
      rcases p with ⟨pe, pn, pr⟩
      obtain ⟨hpe, hne, hrole⟩ := doctor_gate_signed pe pn pr e hg
      exact ⟨⟨pe, pn, pr⟩, e, rfl, hpe, hne, hrole⟩
  · intro h200
    cases hg : doctor_gate auth with
    | err s m =>
      rw [get_doctor_patient_profile, hg] at h200
      rcases doctor_gate_err_status auth s m hg with rfl | rfl <;>
        simp [Resp.status] at h200
    | ok e =>
      obtain ⟨t, rfl⟩ : ∃ t, auth = .bearer t := by
        cases auth with
        | missing => simp [doctor_gate] at hg
        | malformed s => simp [doctor_gate] at hg
        | bearer t => exact ⟨t, rfl⟩
      obtain ⟨p, rfl⟩ : ∃ p, t = Token.signed p := by
        cases t with
        | forged f => simp [doctor_gate, decode_token] at hg
        | signed p => exact ⟨p, rfl⟩
      rcases p with ⟨pe, pn, pr⟩
      obtain ⟨hpe, hne, hrole⟩ := doctor_gate_signed pe pn pr e hg
      exact ⟨⟨pe, pn, pr⟩, e, rfl, hpe, hne, hrole⟩
  · intro p e r ha he hne hr hnd
    subst ha
    have hg := doctor_gate_forbidden p e r he hne hr hnd
    constructor
    · rw [get_doctor_patients, hg]; rfl
    · rw [get_doctor_patient_profile, hg]; rfl

/-- A decodable token payload for a doctor-address caller whose role is
`"Patient"`. -/
def patientRolePayload : TokenPayload :=
  { email := some "doc@x", name := none, role := some "Patient" }

/-- A decodable token payload with role `"Patient"` and no email claim. -/
def noEmailPatientPayload : TokenPayload :=
  { email := none, name := none, role := some "Patient" }

/-- Witness for C5 (amended): a decodable token with email `"doc@x"` and
role `"Patient"` receives 403 from both doctor endpoints. -/
theorem C5_witness :
    (get_doctor_patients []
        (.bearer (.signed patientRolePayload))).status = 403 ∧
    (get_doctor_patient_profile []
        (.bearer (.signed patientRolePayload)) "pid").status = 403 :=
  (C5_doctor_role_gate [] _ "pid").2.2 patientRolePayload
    "doc@x" "Patient" rfl rfl (by decide) rfl (by decide)

/-- Counterexample to C5 as stated: a valid (decodable) token whose role
is `"Patient"` but which carries no email is answered 401, not 403, by
both doctor endpoints. -/
theorem C5_counterexample :
    decode_token (.signed noEmailPatientPayload) =
      .ok noEmailPatientPayload ∧
    noEmailPatientPayload.role = some "Patient" ∧
    "Patient" ≠ "Doctor" ∧
    (get_doctor_patients []
        (.bearer (.signed noEmailPatientPayload))).status = 401 ∧
    (get_doctor_patient_profile []
        (.bearer (.signed noEmailPatientPayload)) "pid").status = 401 ∧
    (401 : Nat) ≠ 403 := by
  refine ⟨rfl, rfl, by decide, rfl, rfl, by decide⟩

/-- C6: with a valid bearer token carrying a truthy email, the delete
endpoint removes only records owned by that email with the requested id,
and answers 404 — leaving the store unchanged — when no such record
exists (not owned, or non-existent). -/
theorem C6_delete_owner_scoped (db : List DbRecord) (p : TokenPayload)
    (e : String) (oid : Nat) (h1 : p.email = some e) (h2 : e ≠ "") :
    (∀ r ∈ db,
        r ∉ (delete_history_item db (.bearer (.signed p)) (.oid oid)).2 →
        r.doc.userId = some e ∧ r.id = oid) ∧
    ((∀ r ∈ db, ¬ (r.id = oid ∧ r.doc.userId = some e)) →
      (delete_history_item db (.bearer (.signed p)) (.oid oid)).1 =
        .err 404 "Item not found" ∧
      (delete_history_item db (.bearer (.signed p)) (.oid oid)).2 = db) := by
  have hred : delete_history_item db (.bearer (.signed p)) (.oid oid) =
      (if (delete_one db oid e).1 = 0 then
        ((.err 404 "Item not found" : Resp Unit), (delete_one db oid e).2)
      else (.ok (), (delete_one db oid e).2)) := by
    simp [delete_history_item, decode_token, h1, h2]
  cases hf : db.find? (fun r => r.id = oid ∧ r.doc.userId = some e) with
  | none =>
    have hdel : delete_one db oid e = (0, db) := by
      simp only [delete_one, hf]
    rw [hred, hdel]
    refine ⟨?_, fun _ => ⟨rfl, rfl⟩⟩
    intro r hr hnr
    exact absurd hr hnr
  | some r0 =>
    have hdel : delete_one db oid e = (1, db.erase r0) := by
      simp only [delete_one, hf]
    have hp0 : r0.id = oid ∧ r0.doc.userId = some e := by
      have := List.find?_some hf
      exact of_decide_eq_true this
    rw [hred, hdel]
    refine ⟨?_, ?_⟩
    · intro r hr hnr
      simp only [if_neg (by decide : ¬ (1 : Nat) = 0)] at hnr
      by_cases hrr : r = r0
      · subst hrr; exact ⟨hp0.2, hp0.1⟩
      · exact absurd ((List.mem_erase_of_ne hrr).2 hr) hnr
    · intro hnone
      have hmem : r0 ∈ db := List.mem_of_find?_eq_some hf
      exact absurd hp0 (hnone r0 hmem)

/-- A decodable token payload for the caller `"bob@x"`. -/
def bobPayload : TokenPayload :=
  { email := some "bob@x", name := none, role := none }

/-- A concrete stored prediction owned by `"alice@x"`. -/
def rec1 : DbRecord :=
  { id := 1
    doc :=
      { created_at := 0, userId := some "alice@x",
        doctorId := some "alice@x", patientId := none, patientName := none,
        input := {}, risk_score := 0, risk_level := "Low",
        smoking_status := none, diabetes_status := none,
        family_history_diabetes := none, pregnancy_status := none,
        top_features := [], explanation_text := "",
        lifestyle_suggestions := [], followup_plan := "",
        prescription_summary := "" } }

/-- Witness for C6: when `"bob@x"` asks to delete the record of `"alice@x"` it gets
404 and the store is unchanged. -/
theorem C6_witness :
    (delete_history_item [rec1]
        (.bearer (.signed bobPayload)) (.oid 1)).1 =
      .err 404 "Item not found" ∧
    (delete_history_item [rec1]
        (.bearer (.signed bobPayload)) (.oid 1)).2 = [rec1] :=
  (C6_delete_owner_scoped [rec1] bobPayload "bob@x" 1 rfl (by decide)).2
    (by decide)

/-- Finding a freshly appended user by email: when no earlier user has
the email, `find?` returns the appended one. -/
theorem find_appended_user (users0 : List User) (u : User) (em : String)
    (hu : u.email = em) (h : ∀ v ∈ users0, v.email ≠ em) :
    (users0 ++ [u]).find? (fun v => v.email = em) = some u := by
  induction users0 with
  | nil => simp [List.find?, hu]
  | cons a l ih =>
    have ha : ¬ (a.email = em) := h a (by simp)
    simp only [List.cons_append, List.find?]
    rw [decide_eq_false ha]
    exact ih (fun v hv => h v (List.mem_cons_of_mem a hv))

/-- C10 (implicit): a `/signup` whose body omits the role field stores
the user with role `"Doctor"`, so a subsequent `/login` with the same
credentials issues a token carrying role `"Doctor"` that passes the
doctor-only gate. -/
theorem C10_default_role_doctor (users0 : List User)
    (hash : String → String) (data : SignupBody)
    (hrole : data.role = none)
    (hfresh : ∀ u ∈ users0, u.email ≠ data.email)
    (hne : data.email ≠ "") :
    (signup users0 hash data).1 = .ok () ∧
    (signup users0 hash data).2 =
      users0 ++ [{ name := data.name, email := data.email,
                   password := hash data.password, role := "Doctor" }] ∧
    login (signup users0 hash data).2 hash data.email data.password =
      .ok { token := generate_token data.email (some data.name)
              (some "Doctor"),
            name := some data.name, role := some "Doctor" } ∧
    doctor_gate (.bearer (generate_token data.email (some data.name)
      (some "Doctor"))) = .ok data.email := by
  have hany : (users0.any (fun u => u.email = data.email)) = false := by
    rw [List.any_eq_false]
    intro u hu
    simp only [decide_eq_true_eq]
    exact hfresh u hu
  have hsign : signup users0 hash data =
      (.ok (),
       users0 ++ [{ name := data.name, email := data.email,
                    password := hash data.password, role := "Doctor" }]) := by
    simp [signup, hany, hrole]
  have hfind := find_appended_user users0
    { name := data.name, email := data.email,
      password := hash data.password, role := "Doctor" }
    data.email rfl hfresh
  refine ⟨by rw [hsign], by rw [hsign], ?_, ?_⟩
  · rw [hsign]
    simp only [login, hfind]
    simp [verify_password]
  · simp [doctor_gate, generate_token, decode_token, hne]

/-- Witness for C10: signing up `"alice@x"` with no role field and
logging in yields a Doctor-role token accepted by the doctor gate. -/
theorem C10_witness :
    ((⟨"Alice", "alice@x", "pw", none⟩ : SignupBody).role = none) ∧
    ((signup [] (fun s => s) ⟨"Alice", "alice@x", "pw", none⟩).1 =
        .ok () ∧
      (signup [] (fun s => s) ⟨"Alice", "alice@x", "pw", none⟩).2 =
        [] ++ [{ name := "Alice", email := "alice@x",
                 password := "pw", role := "Doctor" }] ∧
      login (signup [] (fun s => s) ⟨"Alice", "alice@x", "pw", none⟩).2
          (fun s => s) "alice@x" "pw" =
        .ok { token := generate_token "alice@x" (some "Alice")
                (some "Doctor"),
              name := some "Alice", role := some "Doctor" } ∧
      doctor_gate (.bearer (generate_token "alice@x" (some "Alice")
        (some "Doctor"))) = .ok "alice@x") :=
  ⟨rfl, C10_default_role_doctor [] (fun s => s)
    ⟨"Alice", "alice@x", "pw", none⟩ rfl (by simp) (by decide)⟩

/-- Witness for C2: on a request carrying only `age = 29`, the derived
row gains `age_group = "0-30"` by the stated binning. -/
theorem C2_witness :
    (deriveColumns { age := some (.num 29) }).age_group =
      some (.str "0-30") := by
  rw [(C2_column_derivation { age := some (.num 29) }).2.1]
  decide

/-- Witness for C3: the theorem evaluated on the concrete SHAP vector
`[3, -1, 2]` with names `["a", "b", "c"]`. -/
theorem C3_witness :
    (get_top_features [3, -1, 2] ["a", "b", "c"] 5).length ≤ 5 ∧
    List.Pairwise (fun x y : String × ℚ => |y.2| ≤ |x.2|)
      (get_top_features [3, -1, 2] ["a", "b", "c"] 5) ∧
    (∀ x ∈ get_top_features [3, -1, 2] ["a", "b", "c"] 5,
      ∃ i < ([3, -1, 2] : List ℚ).length,
        x = (["a", "b", "c"].getD i "",
          ([3, -1, 2] : List ℚ).getD i 0)) :=
  C3_top_features_sorted [3, -1, 2] ["a", "b", "c"]

end HeartRisk
